import Mathlib

/-!
Shallow embedding of the stm32-sdmmc SD/MMC driver (src/lib.rs and
src/stm32l4x6.rs) and verification of its specification claims.

The hardware (SDMMC controller + DMA engine) is modelled as a stream of
register snapshots: every read of the controller status register consumes
the next snapshot, and the response registers are read from the snapshot
latched by the most recent status read.  Driver functions are explicit
state-passing functions; the `block!` polling loops of the source are given
a fuel parameter, with `none` denoting fuel exhaustion (a poll loop that has
not yet resolved).
-/

deriving instance DecidableEq for Except

namespace Sd

/-- Error enum from src/lib.rs. -/
inductive Error where
  | NoCard
  | Uninitialized
  | ReceiveOverrun
  | SendUnderrun
  | Timeout
  | CRCFail
  | OperatingConditionsNotSupported
  | UnexpectedResponse
  | UnknownResult
  | Busy
  | NoOperation
  | InvalidValue
deriving DecidableEq

/-- CardVersion enum from src/lib.rs. -/
inductive CardVersion where
  | V1SC
  | V2SC
  | V2HC
deriving DecidableEq

/-- BusWidth enum from src/lib.rs. -/
inductive BusWidth where
  | Bits1
  | Bits4
deriving DecidableEq

/-- State enum from src/stm32l4x6.rs (Device session state). -/
inductive State where
  | Uninitialized
  | Init1 (v2 : Bool)
  | Ready
  | Reading
  | Writing
  | Erasing
deriving DecidableEq

/-- The nb::Result type: ok, WouldBlock (pending), or a typed error. -/
inductive Nb (α : Type) where
  | ok (a : α)
  | wb
  | err (e : Error)
deriving DecidableEq

/-- Command enum from src/lib.rs with its wire encoding (the Rust
discriminant used by `cmd as u8`). -/
inductive Command where
  | GO_IDLE_STATE
  | ALL_SEND_CID
  | SEND_RELATIVE_ADDR
  | SELECT_CARD
  | SEND_IF_COND
  | SEND_CSD
  | SEND_CID
  | SEND_STATUS
  | READ_BLOCK
  | READ_MULTIPLE_BLOCK
  | SET_BLOCK_COUNT
  | WRITE_BLOCK
  | WRITE_MULTIPLE_BLOCK
  | ERASE_WR_BLK_START
  | ERASE_WR_BLK_END
  | ERASE
  | APP_COMMAND
deriving DecidableEq

/-- The numeric discriminants of Command in src/lib.rs. -/
def Command.code : Command → Nat
  | .GO_IDLE_STATE => 0
  | .ALL_SEND_CID => 2
  | .SEND_RELATIVE_ADDR => 3
  | .SELECT_CARD => 7
  | .SEND_IF_COND => 8
  | .SEND_CSD => 9
  | .SEND_CID => 10
  | .SEND_STATUS => 13
  | .READ_BLOCK => 17
  | .READ_MULTIPLE_BLOCK => 18
  | .SET_BLOCK_COUNT => 23
  | .WRITE_BLOCK => 24
  | .WRITE_MULTIPLE_BLOCK => 25
  | .ERASE_WR_BLK_START => 32
  | .ERASE_WR_BLK_END => 33
  | .ERASE => 38
  | .APP_COMMAND => 55

/-- AppCommand enum from src/lib.rs. -/
inductive AppCommand where
  | SET_BUS_WIDTH
  | SD_STATUS
  | SET_WR_BLK_ERASE_COUNT
  | SD_SEND_OP_COND
deriving DecidableEq

/-- The numeric discriminants of AppCommand in src/lib.rs. -/
def AppCommand.code : AppCommand → Nat
  | .SET_BUS_WIDTH => 6
  | .SD_STATUS => 13
  | .SET_WR_BLK_ERASE_COUNT => 23
  | .SD_SEND_OP_COND => 41

/-- BLOCK_SIZE constant from src/lib.rs. -/
def BLOCK_SIZE : Nat := 0x200

/-- A 136-bit (long) response: the four 32-bit response registers
resp1..resp4, resp1 holding the most significant word. -/
structure Resp4 where
  r1 : Nat
  r2 : Nat
  r3 : Nat
  r4 : Nat
deriving DecidableEq

/-- CSD enum from src/lib.rs: two raw 128-bit capacity-descriptor layouts. -/
inductive CSD where
  | V1 (words : Resp4)
  | V2 (words : Resp4)
deriving DecidableEq

/-- CSD::capacity from src/lib.rs.  `words[i]` of the Rust array is field
r(i+1) here.  All arithmetic is on u32; the additions and shifts are kept
under an explicit 2^32 reduction where the Rust could wrap. -/
def CSD.capacity : CSD → Nat
  | .V1 words =>
      let c_size := ((words.r3 >>> 30 ||| (words.r2 &&& 0x3ff) <<< 2) + 1) % 2 ^ 32
      let c_size_mult := ((words.r3 &&& 0x00038000) >>> 15) + 2
      (c_size <<< c_size_mult) % 2 ^ 32
  | .V2 words =>
      let c_size := ((words.r3 >>> 16) + 1) % 2 ^ 32
      (c_size <<< 10) % 2 ^ 32

/-- ERROR_MASK constant from src/lib.rs. -/
def ERROR_MASK : Nat := 0xfff98004

/-- CardStatus from src/lib.rs: a 32-bit card status word. -/
structure CardStatus where
  raw : Nat
deriving DecidableEq

/-- CardStatus::any_error from src/lib.rs. -/
def CardStatus.any_error (c : CardStatus) : Bool :=
  c.raw &&& ERROR_MASK != 0

/-- CardStatus::ready_for_data from src/lib.rs. -/
def CardStatus.ready_for_data (c : CardStatus) : Bool :=
  (c.raw >>> 8) &&& 1 != 0

/-- SDStatus from src/lib.rs: a 64-byte extended status snapshot. -/
structure SDStatus where
  bytes : Fin 64 → Fin 256

/-- The allocation-unit-size table applied to the high nibble of byte 0x0a,
exactly the match arms of SDStatus::au_size in src/lib.rs. -/
def au_size_of_byte (b : Nat) : Except Error Nat :=
  match b >>> 4 with
  | 0x1 => .ok (16 * 1024)
  | 0x2 => .ok (32 * 1024)
  | 0x3 => .ok (64 * 1024)
  | 0x4 => .ok (128 * 1024)
  | 0x5 => .ok (256 * 1024)
  | 0x6 => .ok (512 * 1024)
  | 0x7 => .ok (1024 * 1024)
  | 0x8 => .ok (2 * 1024 * 1024)
  | 0x9 => .ok (4 * 1024 * 1024)
  | 0xa => .ok (8 * 1024 * 1024)
  | 0xb => .ok (12 * 1024 * 1024)
  | 0xc => .ok (16 * 1024 * 1024)
  | 0xd => .ok (24 * 1024 * 1024)
  | 0xe => .ok (32 * 1024 * 1024)
  | 0xf => .ok (64 * 1024 * 1024)
  | _ => .error Error.InvalidValue

/-- SDStatus::au_size from src/lib.rs: decode byte 0x0a's high nibble. -/
def SDStatus.au_size (s : SDStatus) : Except Error Nat :=
  au_size_of_byte (s.bytes (10 : Fin 64)).val

/-- The 4-bit allocation-unit-size code of an extended status snapshot. -/
def SDStatus.au_code (s : SDStatus) : Nat :=
  (s.bytes (10 : Fin 64)).val >>> 4

/-- Modelled from the spec, section 4.1 and 8: the fixed allocation-unit
size lookup table, with codes 0x0 and anything above 0xf invalid. -/
def au_spec_table (code : Nat) : Except Error Nat :=
  if code = 0x1 then .ok (16 * 1024)
  else if code = 0x2 then .ok (32 * 1024)
  else if code = 0x3 then .ok (64 * 1024)
  else if code = 0x4 then .ok (128 * 1024)
  else if code = 0x5 then .ok (256 * 1024)
  else if code = 0x6 then .ok (512 * 1024)
  else if code = 0x7 then .ok (1024 * 1024)
  else if code = 0x8 then .ok (2 * 1024 * 1024)
  else if code = 0x9 then .ok (4 * 1024 * 1024)
  else if code = 0xa then .ok (8 * 1024 * 1024)
  else if code = 0xb then .ok (12 * 1024 * 1024)
  else if code = 0xc then .ok (16 * 1024 * 1024)
  else if code = 0xd then .ok (24 * 1024 * 1024)
  else if code = 0xe then .ok (32 * 1024 * 1024)
  else if code = 0xf then .ok (64 * 1024 * 1024)
  else .error Error.InvalidValue

/-- The SDMMC status register bits read by the driver (sta register). -/
structure Sta where
  cmdact : Bool
  ccrcfail : Bool
  ctimeout : Bool
  cmdrend : Bool
  cmdsent : Bool
  rxact : Bool
  txact : Bool
  dcrcfail : Bool
  dtimeout : Bool
  rxoverr : Bool
  txunderr : Bool
  dataend : Bool
  dbckend : Bool
deriving DecidableEq

/-- A snapshot of the controller's read-only registers at one status-read
instant: the status bits plus the latched response registers. -/
structure Snap where
  sta : Sta
  respcmd : Nat
  resp1 : Nat
  resp2 : Nat
  resp3 : Nat
  resp4 : Nat
deriving DecidableEq

/-- Config struct from src/stm32l4x6.rs. -/
structure Config where
  bus_width : BusWidth
  clock_divider : Nat
  data_timeout : Nat
deriving DecidableEq

/-- The combined session-and-hardware state threaded through the driver.
Driver-owned fields mirror the Device struct of src/stm32l4x6.rs; the
remaining fields model observable hardware effects: `snaps` is the fixed
environment stream of register snapshots, `idx` counts status reads, `cur`
is the snapshot latched by the most recent status read, `issued` records
every write to the command register as (cmdindex, argument, waitresp),
`dmaEnabled` mirrors the DMA channel enable bit, `dlen` the data length
register, `icrAcks` counts writes of STATUS_ERROR_MASK to the interrupt
clear register, `periInits` records the clock divider of each init_peri
call, `assertFailed` latches a violation of the setup_read assertion, and
`rccResets` counts peripheral resets through the RCC. -/
structure S where
  config : Config
  state : State
  rca : Nat
  csd : CSD
  cid : Resp4
  card_version : CardVersion
  snaps : Nat → Snap
  idx : Nat
  cur : Snap
  issued : List (Nat × Nat × Nat)
  dmaEnabled : Bool
  dlen : Nat
  icrAcks : Nat
  periInits : List Nat
  assertFailed : Bool
  rccResets : Nat

/-- Read the sta register: consume and latch the next snapshot. -/
def readSta (s : S) : Sta × S :=
  ((s.snaps s.idx).sta, { s with idx := s.idx + 1, cur := s.snaps s.idx })

/-- Write STATUS_ERROR_MASK to the interrupt clear register. -/
def icrAck (s : S) : S :=
  { s with icrAcks := s.icrAcks + 1 }

/-- Write the argument and command registers, arming one command: models
the arg.write and cmd.write pair that every command issue performs. -/
def issueCmd (cmdindex arg waitresp : Nat) (s : S) : S :=
  { s with issued := s.issued ++ [(cmdindex, arg, waitresp)] }

/-- Device::init_peri from src/stm32l4x6.rs: reconfigures clock, power,
bus width, data timeout and the DMA channel selection.  Only the divider
argument is observable in the model. -/
def init_peri (clock_divider : Nat) (s : S) : S :=
  { s with periInits := s.periInits ++ [clock_divider] }

/-- Device::reset from src/stm32l4x6.rs: set the session state to
Uninitialized and pulse the DMA2 and SDMMC reset lines through the RCC. -/
def reset (s : S) : S :=
  { s with state := State.Uninitialized, rccResets := s.rccResets + 1 }

/-- Device::check_command from src/stm32l4x6.rs: one poll of the command
path.  Still executing means pending; otherwise the error-status bits are
acknowledged and the outcome classified in priority order. -/
def check_command (expect_response : Bool) (s : S) : Nb Unit × S :=
  let (status, s) := readSta s
  if status.cmdact then (.wb, s)
  else
    let s := icrAck s
    if status.ccrcfail then (.err .CRCFail, s)
    else if status.ctimeout then (.err .Timeout, s)
    else if expect_response && !status.cmdrend then (.err .UnknownResult, s)
    else if !expect_response && !status.cmdsent then (.err .UnknownResult, s)
    else (.ok (), s)

/-- The block! macro applied to check_command: poll until no longer
pending.  `none` means the fuel ran out while still pending. -/
def blockCheck (expect_response : Bool) : Nat → S → Option (Except Error Unit × S)
  | 0, _ => none
  | fuel + 1, s =>
    match check_command expect_response s with
    | (.wb, s) => blockCheck expect_response fuel s
    | (.ok a, s) => some (.ok a, s)
    | (.err e, s) => some (.error e, s)

/-- Device::card_command_none from src/stm32l4x6.rs: issue a command that
expects no response (waitresp = 0). -/
def card_command_none (cmd : Command) (arg : Nat) (fuel : Nat) (s : S) :
    Option (Except Error Unit × S) :=
  let s := issueCmd cmd.code arg 0 s
  blockCheck false fuel s

/-- Device::card_command_short from src/stm32l4x6.rs: issue a command with
a short (48-bit) response (waitresp = 1), check the echoed command index,
and read the 32-bit response word. -/
def card_command_short (cmd : Command) (arg : Nat) (fuel : Nat) (s : S) :
    Option (Except Error Nat × S) :=
  let s := issueCmd cmd.code arg 1 s
  match blockCheck true fuel s with
  | none => none
  | some (.error e, s) => some (.error e, s)
  | some (.ok _, s) =>
    if s.cur.respcmd % 64 != cmd.code then some (.error .UnexpectedResponse, s)
    else some (.ok (s.cur.resp1 % 2 ^ 32), s)

/-- Device::card_command_long from src/stm32l4x6.rs: issue a command with
a long (136-bit) response (waitresp = 3) and read the four response words.
The fixed busy-wait settle delay of the source is a pure delay and has no
observable effect in the model. -/
def card_command_long (cmd : Command) (arg : Nat) (fuel : Nat) (s : S) :
    Option (Except Error Resp4 × S) :=
  let s := issueCmd cmd.code arg 3 s
  match blockCheck true fuel s with
  | none => none
  | some (.error e, s) => some (.error e, s)
  | some (.ok _, s) =>
    some (.ok ⟨s.cur.resp1 % 2 ^ 32, s.cur.resp2 % 2 ^ 32,
      s.cur.resp3 % 2 ^ 32, s.cur.resp4 % 2 ^ 32⟩, s)

/-- Device::app_command_short from src/stm32l4x6.rs: send APP_COMMAND with
the stored relative card address, then the application command itself
(waitresp = 1) and read its response word; the echoed command index of the
second exchange is not checked. -/
def app_command_short (cmd : AppCommand) (arg : Nat) (fuel : Nat) (s : S) :
    Option (Except Error Nat × S) :=
  match card_command_short .APP_COMMAND s.rca fuel s with
  | none => none
  | some (.error e, s) => some (.error e, s)
  | some (.ok _, s) =>
    let s := issueCmd cmd.code arg 1 s
    match blockCheck true fuel s with
    | none => none
    | some (.error e, s) => some (.error e, s)
    | some (.ok _, s) => some (.ok (s.cur.resp1 % 2 ^ 32), s)

/-- Device::acmd41 from src/stm32l4x6.rs: send APP_COMMAND with argument 0,
then SD_SEND_OP_COND; acmd41 does not set a CRC, so CRCFail from that
second exchange is reinterpreted as success before the response is read. -/
def acmd41 (hcs : Bool) (fuel : Nat) (s : S) : Option (Except Error Nat × S) :=
  match card_command_short .APP_COMMAND 0 fuel s with
  | none => none
  | some (.error e, s) => some (.error e, s)
  | some (.ok _, s) =>
    let arg := 0x00100000 ||| (if hcs then 1 else 0) <<< 30
    let s := issueCmd AppCommand.SD_SEND_OP_COND.code arg 1 s
    match blockCheck true fuel s with
    | none => none
    | some (res, s) =>
      match (match res with | .error .CRCFail => Except.ok () | x => x) with
      | .error e => some (.error e, s)
      | .ok _ => some (.ok (s.cur.resp1 % 2 ^ 32), s)

/-- SEND_IF_COND_PATTERN constant from src/stm32l4x6.rs. -/
def SEND_IF_COND_PATTERN : Nat := 0x000001aa

/-- Device::check_operating_conditions from src/stm32l4x6.rs. -/
def check_operating_conditions (fuel : Nat) (s : S) : Option (Except Error Unit × S) :=
  match card_command_short .SEND_IF_COND SEND_IF_COND_PATTERN fuel s with
  | none => none
  | some (.error e, s) => some (.error e, s)
  | some (.ok received_pattern, s) =>
    if received_pattern != SEND_IF_COND_PATTERN then
      some (.error .OperatingConditionsNotSupported, s)
    else some (.ok (), s)

/-- Device::card_status from src/stm32l4x6.rs: reconfigure the peripheral
and query the 32-bit card status with SEND_STATUS. -/
def card_status (fuel : Nat) (s : S) : Option (Except Error CardStatus × S) :=
  let s := init_peri s.config.clock_divider s
  match card_command_short .SEND_STATUS s.rca fuel s with
  | none => none
  | some (.error e, s) => some (.error e, s)
  | some (.ok r, s) => some (.ok ⟨r⟩, s)

/-- Device::check_ready from src/stm32l4x6.rs: precondition check run by
every operation start. -/
def check_ready (s : S) : Except Error Unit × S :=
  match s.state with
  | .Uninitialized | .Init1 _ => (.error .Uninitialized, s)
  | .Ready => (.ok (), init_peri s.config.clock_divider s)
  | .Reading | .Writing | .Erasing => (.error .Busy, s)

/-- The assertion of Device::setup_read in src/stm32l4x6.rs: the transfer
length must be a power of two, a multiple of 4 bytes and below 256 KiB. -/
def setup_read_len_ok (size : Nat) : Bool :=
  (size != 0 && size &&& (size - 1) == 0) && size &&& 3 == 0 && size < 0x40000

/-- Device::setup_read from src/stm32l4x6.rs: assert the length contract,
set the data length register, configure and enable the receive DMA channel
and arm the data control register.  A violated assertion is latched in
assertFailed (a Rust panic). -/
def setup_read (size : Nat) (s : S) : S :=
  let s := { s with assertFailed := s.assertFailed || !setup_read_len_ok size }
  { s with dlen := size, dmaEnabled := true }

/-- CardHost::card_size from src/stm32l4x6.rs. -/
def card_size (s : S) : Except Error Nat × S :=
  match s.state with
  | .Uninitialized => (.error .Uninitialized, s)
  | .Init1 _ => (.error .Uninitialized, s)
  | _ => (.ok s.csd.capacity, s)

/-- CardHost::card_id from src/stm32l4x6.rs. -/
def card_id (s : S) : Except Error Resp4 × S :=
  match s.state with
  | .Uninitialized => (.error .Uninitialized, s)
  | .Init1 _ => (.error .Uninitialized, s)
  | _ => (.ok s.cid, s)

/-- CardHost::erase from src/stm32l4x6.rs: check readiness, then issue the
erase start-address, end-address and erase commands and enter Erasing. -/
def erase (start finish : Nat) (fuel : Nat) (s : S) : Option (Except Error Unit × S) :=
  match check_ready s with
  | (.error e, s) => some (.error e, s)
  | (.ok _, s) =>
    match card_command_short .ERASE_WR_BLK_START start fuel s with
    | none => none
    | some (.error e, s) => some (.error e, s)
    | some (.ok _, s) =>
      match card_command_short .ERASE_WR_BLK_END finish fuel s with
      | none => none
      | some (.error e, s) => some (.error e, s)
      | some (.ok _, s) =>
        match card_command_short .ERASE 0 fuel s with
        | none => none
        | some (.error e, s) => some (.error e, s)
        | some (.ok _, s) => some (.ok (), { s with state := State.Erasing })

/-- CardHost::erase_card from src/stm32l4x6.rs: whole-card erase; the end
address is the cached capacity minus one and the erase argument 2 selects
Full User area Logical Erase.  (The capacity is never zero for a cached
descriptor, so the u32 subtraction cannot wrap.) -/
def erase_card (fuel : Nat) (s : S) : Option (Except Error Unit × S) :=
  match check_ready s with
  | (.error e, s) => some (.error e, s)
  | (.ok _, s) =>
    match card_command_short .ERASE_WR_BLK_START 0 fuel s with
    | none => none
    | some (.error e, s) => some (.error e, s)
    | some (.ok _, s) =>
      match card_size s with
      | (.error e, s) => some (.error e, s)
      | (.ok sz, s) =>
        match card_command_short .ERASE_WR_BLK_END (sz - 1) fuel s with
        | none => none
        | some (.error e, s) => some (.error e, s)
        | some (.ok _, s) =>
          match card_command_short .ERASE 2 fuel s with
          | none => none
          | some (.error e, s) => some (.error e, s)
          | some (.ok _, s) => some (.ok (), { s with state := State.Erasing })

/-- CardHost::read_block from src/stm32l4x6.rs: check readiness, arm the
DMA receive path for one 512-byte block, issue READ_BLOCK, and on success
enter Reading.  On a command error the DMA channel is left armed (the
source marks disabling it as a TODO). -/
def read_block (address : Nat) (fuel : Nat) (s : S) : Option (Except Error Unit × S) :=
  match check_ready s with
  | (.error e, s) => some (.error e, s)
  | (.ok _, s) =>
    let s := setup_read BLOCK_SIZE s
    match card_command_short .READ_BLOCK address fuel s with
    | none => none
    | some (.ok _, s) => some (.ok (), { s with state := State.Reading })
    | some (.error e, s) => some (.error e, s)

/-- CardHost::write_blocks from src/stm32l4x6.rs for a slice of `nblocks`
blocks: check readiness, issue SET_BLOCK_COUNT, configure the data length
register and the transmit DMA channel, issue WRITE_MULTIPLE_BLOCK, enter
Writing and arm the data control register.  The u32 cast of the byte
length wraps modulo 2^32. -/
def write_blocks (nblocks : Nat) (address : Nat) (fuel : Nat) (s : S) :
    Option (Except Error Unit × S) :=
  match check_ready s with
  | (.error e, s) => some (.error e, s)
  | (.ok _, s) =>
    match card_command_short .SET_BLOCK_COUNT (nblocks % 2 ^ 32) fuel s with
    | none => none
    | some (.error e, s) => some (.error e, s)
    | some (.ok _, s) =>
      let s := { s with dlen := nblocks * BLOCK_SIZE % 2 ^ 32, dmaEnabled := true }
      match card_command_short .WRITE_MULTIPLE_BLOCK address fuel s with
      | none => none
      | some (.error e, s) => some (.error e, s)
      | some (.ok _, s) => some (.ok (), { s with state := State.Writing })

/-- CardHost::write_block from src/lib.rs: the provided trait method wraps
the single block in a one-element slice and calls write_blocks. -/
def write_block (address : Nat) (fuel : Nat) (s : S) : Option (Except Error Unit × S) :=
  write_blocks 1 address fuel s

/-- CardHost::result from src/stm32l4x6.rs: the completion poll.  It reads
the status register once up front; Uninitialized/Init1 and Ready fail with
Uninitialized resp. NoOperation; Reading/Writing are pending while the
receive/transmit-active flag is set and otherwise disable the DMA channel,
acknowledge the error-status bits, return to Ready and classify the data
flags in priority order; Erasing issues a fresh SEND_STATUS query and
completes only once the card reports ready-for-data. -/
def result (fuel : Nat) (s : S) : Option (Nb Unit × S) :=
  let (status, s) := readSta s
  match s.state with
  | .Uninitialized | .Init1 _ => some (.err .Uninitialized, s)
  | .Ready => some (.err .NoOperation, s)
  | .Erasing =>
    match card_status fuel s with
    | none => none
    | some (.error e, s) => some (.err e, s)
    | some (.ok cs, s) =>
      if cs.ready_for_data then some (.ok (), { s with state := State.Ready })
      else some (.wb, s)
  | .Reading =>
    if status.rxact then some (.wb, s) else some (result_tail status s)
  | .Writing =>
    if status.txact then some (.wb, s) else some (result_tail status s)
where
  /-- The shared completion tail for Reading and Writing: disable the DMA
  channel, acknowledge the error-status bits, return to Ready and classify
  the latched status flags. -/
  result_tail (status : Sta) (s : S) : Nb Unit × S :=
    let s := { s with dmaEnabled := false }
    let s := icrAck s
    let s := { s with state := State.Ready }
    if status.dcrcfail then (.err .CRCFail, s)
    else if status.dtimeout then (.err .Timeout, s)
    else if status.rxoverr then (.err .ReceiveOverrun, s)
    else if status.txunderr then (.err .SendUnderrun, s)
    else if !status.dataend || !status.dbckend then (.err .UnknownResult, s)
    else (.ok (), s)

/-- The block! macro applied to result, as used by read_sd_status. -/
def blockResult : Nat → S → Option (Except Error Unit × S)
  | 0, _ => none
  | fuel + 1, s =>
    match result fuel s with
    | none => none
    | some (.wb, s) => blockResult fuel s
    | some (.ok a, s) => some (.ok a, s)
    | some (.err e, s) => some (.error e, s)

/-- CardHost::read_sd_status from src/stm32l4x6.rs: check readiness, arm
the DMA receive path for the 64-byte extended status, issue the SD_STATUS
application command, enter Reading and block on result().  The 64-byte
payload itself arrives in caller memory by DMA and is decoded separately
by the SDStatus functions. -/
def read_sd_status (fuel : Nat) (s : S) : Option (Except Error Unit × S) :=
  match check_ready s with
  | (.error e, s) => some (.error e, s)
  | (.ok _, s) =>
    let s := setup_read 64 s
    match app_command_short .SD_STATUS s.rca fuel s with
    | none => none
    | some (.error e, s) => some (.error e, s)
    | some (.ok _, s) =>
      let s := { s with state := State.Reading }
      blockResult fuel s

/-- The SET_BUS_WIDTH argument derived from the configuration, as in
Device::init_card in src/stm32l4x6.rs. -/
def bus_width_arg (b : BusWidth) : Nat :=
  match b with
  | .Bits1 => 0
  | .Bits4 => 2

/-- The card-version derivation of Device::init_card from the v2 flag and
the capacity-support bit of the ready response. -/
def version_of (v2 ccs : Bool) : CardVersion :=
  match v2, ccs with
  | false, _ => CardVersion.V1SC
  | true, false => CardVersion.V2SC
  | true, true => CardVersion.V2HC

/-- The CSD tagging of Device::init_card: the raw descriptor words are
tagged V1 for standard-capacity card versions and V2 for high-capacity. -/
def csd_of (v : CardVersion) (w : Resp4) : CSD :=
  match v with
  | .V1SC | .V2SC => CSD.V1 w
  | .V2HC => CSD.V2 w

/-- The steps of Device::init_card after a successful acmd41 ready
response `r`: derive the card version from the capacity-support bit, read
and cache the CID, obtain the relative card address, read and cache the
capacity descriptor, select the card, set the bus width, and only then
enter Ready.  The session state has already been set to Uninitialized. -/
def init_card_tail (v2 : Bool) (r : Nat) (fuel : Nat) (s : S) : Option (Nb Unit × S) :=
  let ccs := (r >>> 30) &&& 1 != 0
  let s := { s with card_version := version_of v2 ccs }
  match card_command_long .ALL_SEND_CID 0 fuel s with
  | none => none
  | some (.error e, s) => some (.err e, s)
  | some (.ok cid, s) =>
    let s := { s with cid := cid }
    match card_command_short .SEND_RELATIVE_ADDR 0 fuel s with
    | none => none
    | some (.error e, s) => some (.err e, s)
    | some (.ok card_rca_status, s) =>
      let s := { s with rca := card_rca_status &&& 0xffff0000 }
      match card_command_long .SEND_CSD s.rca fuel s with
      | none => none
      | some (.error e, s) => some (.err e, s)
      | some (.ok csd, s) =>
        let s := { s with csd := csd_of s.card_version csd }
        match card_command_short .SELECT_CARD s.rca fuel s with
        | none => none
        | some (.error e, s) => some (.err e, s)
        | some (.ok _, s) =>
          match app_command_short .SET_BUS_WIDTH (bus_width_arg s.config.bus_width) fuel s with
          | none => none
          | some (.error e, s) => some (.err e, s)
          | some (.ok _, s) => some (.ok (), { s with state := State.Ready })

/-- The Init1 arm of Device::init_card: reconfigure the peripheral with
the conservative divider, run acmd41 and dispatch on its outcome exactly
as the source's match does (a timeout on a version-1 card is NoCard with
the state untouched; a response without the ready bit is pending; any
other error drops the state to Uninitialized), then continue with
init_card_tail. -/
def init_card_init1 (v2 : Bool) (fuel : Nat) (s : S) : Option (Nb Unit × S) :=
  let s := init_peri 0x80 s
  match acmd41 v2 fuel s with
  | none => none
  | some (res, s) =>
    match res, v2 with
    | .error .Timeout, false => some (.err .NoCard, s)
    | .ok r, _ =>
      if r >>> 31 == 0 then some (.wb, s)
      else init_card_tail v2 r fuel { s with state := State.Uninitialized }
    | .error e, _ => some (.err e, { s with state := State.Uninitialized })

/-- The Uninitialized/Ready arm of Device::init_card: reconfigure the
peripheral with the conservative divider, send GO_IDLE_STATE, probe
SEND_IF_COND to determine the card version (a timeout means a version-1
card), store Init1(v2) and recurse; the source's recursive call lands in
the Init1 arm, written here as init_card_init1. -/
def init_card_go (fuel : Nat) (s : S) : Option (Nb Unit × S) :=
  let s := init_peri 0x80 s
  match card_command_none .GO_IDLE_STATE 0 fuel s with
  | none => none
  | some (.error e, s) => some (.err e, s)
  | some (.ok _, s) =>
    match check_operating_conditions fuel s with
    | none => none
    | some (.error .Timeout, s) => init_card_init1 false fuel { s with state := State.Init1 false }
    | some (.ok _, s) => init_card_init1 true fuel { s with state := State.Init1 true }
    | some (.error e, s) => some (.err e, s)

/-- CardHost::init_card from src/stm32l4x6.rs.  From Reading, Writing or
Erasing it resets the peripheral and reports pending; from Init1 it runs
the acmd41 phase; from Uninitialized or Ready it starts over. -/
def init_card (fuel : Nat) (s : S) : Option (Nb Unit × S) :=
  match s.state with
  | .Reading | .Writing | .Erasing => some (.wb, reset s)
  | .Init1 v2 => init_card_init1 v2 fuel s
  | .Uninitialized | .Ready => init_card_go fuel s

/-- Modelled from the spec, section 4.5: the completion classification for
a finished read or write, in the spec's priority order. -/
def spec_data_classify (st : Sta) : Nb Unit :=
  if st.dcrcfail then .err .CRCFail
  else if st.dtimeout then .err .Timeout
  else if st.rxoverr then .err .ReceiveOverrun
  else if st.txunderr then .err .SendUnderrun
  else if !st.dataend || !st.dbckend then .err .UnknownResult
  else .ok ()

/-- An all-clear status word. -/
def staIdle : Sta :=
  ⟨false, false, false, false, false, false, false, false, false, false, false, false, false⟩

/-- A command completed successfully (response received, command sent). -/
def staCmdOk : Sta := { staIdle with cmdrend := true, cmdsent := true }

/-- A command completed with a command-CRC failure. -/
def staCmdCRC : Sta := { staIdle with ccrcfail := true }

/-- A command completed with a command timeout. -/
def staCmdTimeout : Sta := { staIdle with ctimeout := true }

/-- A successful-command snapshot with a given echoed index and response. -/
def okSnap (rc r1 : Nat) : Snap := ⟨staCmdOk, rc, r1, 0, 0, 0⟩

/-- A command-CRC-failure snapshot with a given response word. -/
def crcSnap (r1 : Nat) : Snap := ⟨staCmdCRC, 0, r1, 0, 0, 0⟩

/-- A command-timeout snapshot. -/
def ctoSnap : Snap := ⟨staCmdTimeout, 0, 0, 0, 0, 0⟩

/-- A snapshot showing an in-progress receive data phase. -/
def rxActSnap : Snap := ⟨{ staIdle with rxact := true }, 0, 0, 0, 0, 0⟩

/-- A snapshot showing a transmit data phase that completed cleanly. -/
def dataOkSnap : Snap := ⟨{ staIdle with dataend := true, dbckend := true }, 0, 0, 0, 0, 0⟩

/-- The hardware-side effect of one resolving check_command poll: consume
and latch a snapshot and acknowledge the error-status bits. -/
def stepSnap (s : S) : S :=
  { s with idx := s.idx + 1, cur := s.snaps s.idx, icrAcks := s.icrAcks + 1 }

/-- The hardware-side effect of one status read: consume and latch a
snapshot. -/
def readOnce (s : S) : S :=
  { s with idx := s.idx + 1, cur := s.snaps s.idx }

/-- The state after result() completes a read or write: one status read,
DMA channel disabled, status flags acknowledged, session back to Ready. -/
def dataDone (s : S) : S :=
  { s with idx := s.idx + 1, cur := s.snaps s.idx, dmaEnabled := false, icrAcks := s.icrAcks + 1, state := State.Ready }

/-- The hardware effects of one Erasing-state result() poll: the initial
status read, then the card_status query (peripheral reconfiguration and a
resolved SEND_STATUS exchange). -/
def erasePoll (s : S) : S :=
  stepSnap (issueCmd Command.SEND_STATUS.code s.rca 1 (init_peri s.config.clock_divider (readOnce s)))

/-- A snapshot stream whose second snapshot answers SEND_STATUS with the
ready-for-data bit set. -/
def eraseReadyScript : Nat → Snap
  | 1 => okSnap 13 0x100
  | _ => okSnap 0 0

/-- A snapshot stream whose second snapshot answers SEND_STATUS with the
ready-for-data bit clear. -/
def eraseBusyScript : Nat → Snap
  | 1 => okSnap 13 0
  | _ => okSnap 0 0

/-- A snapshot stream answering every command as a successful READ_BLOCK
exchange. -/
def readBlockScript : Nat → Snap
  | _ => okSnap 17 0

/-- The snapshot stream of the Init1 phase onwards of a successful
initialization whose SD_SEND_OP_COND exchange reports a command-CRC
failure together with a ready, high-capacity response word. -/
def c3Init1Script : Nat → Snap
  | 0 => okSnap 55 0
  | 1 => crcSnap 0xC0000000
  | 2 => okSnap 0 0x11111111
  | 3 => okSnap 3 0x56780000
  | 4 => okSnap 0 0x22222222
  | 5 => okSnap 7 0
  | 6 => okSnap 55 0
  | _ => okSnap 0 0

/-- A device state with the default configuration, a given session state
and a given snapshot stream, used for concrete scenarios. -/
def mkS (st : State) (sn : Nat → Snap) : S where
  config := ⟨BusWidth.Bits1, 4, 0x1000000⟩
  state := st
  rca := 0
  csd := CSD.V1 ⟨0, 0, 0, 0⟩
  cid := ⟨0, 0, 0, 0⟩
  card_version := CardVersion.V1SC
  snaps := sn
  idx := 0
  cur := okSnap 0 0
  issued := []
  dmaEnabled := false
  dlen := 0
  icrAcks := 0
  periInits := []
  assertFailed := false
  rccResets := 0

/-- The snapshot stream of a complete successful initialization in which
the SD_SEND_OP_COND exchange reports a command-CRC failure (as real cards
do, since that response carries no CRC) together with a ready,
high-capacity response word. -/
def initScript : Nat → Snap
  | 0 => okSnap 0 0
  | 1 => okSnap 8 0x1aa
  | 2 => okSnap 55 0
  | 3 => crcSnap 0xC0000000
  | 4 => okSnap 0 0x11111111
  | 5 => okSnap 3 0x12340000
  | 6 => okSnap 0 0x22222222
  | 7 => okSnap 7 0
  | 8 => okSnap 55 0
  | _ => okSnap 0 0

/-- The 128-bit CSD register value formed from the four response words,
resp1 being the most significant (bits 127..96). -/
def csdBits (w : Resp4) : Nat :=
  ((w.r1 * 2 ^ 32 + w.r2) * 2 ^ 32 + w.r3) * 2 ^ 32 + w.r4

/-- A bit field of the 128-bit CSD register: `len` bits starting at bit
`off` (bit 0 being the least significant bit of the register). -/
def csdField (w : Resp4) (off len : Nat) : Nat :=
  (csdBits w >>> off) % 2 ^ len

/-- The driver-session fields of `sb` agree with those of `sa`: the
command layer touches only the hardware-mirror fields (snapshot cursor,
issued commands, acknowledge counter, peripheral reconfigurations). -/
def sameDrv (sa sb : S) : Prop :=
  sb.config = sa.config ∧ sb.state = sa.state ∧ sb.rca = sa.rca ∧ sb.csd = sa.csd
  ∧ sb.cid = sa.cid ∧ sb.card_version = sa.card_version ∧ sb.dmaEnabled = sa.dmaEnabled
  ∧ sb.dlen = sa.dlen ∧ sb.assertFailed = sa.assertFailed ∧ sb.rccResets = sa.rccResets
  ∧ sb.snaps = sa.snaps

/-- Masking a word with 0x38000 and shifting right by 15 extracts the
3-bit field at bits 15..17. -/
lemma and_0x38000_shift (w : Nat) : (w &&& 0x38000) >>> 15 = w / 2 ^ 15 % 2 ^ 3 := by
  apply Nat.eq_of_testBit_eq
  intro i
  rw [Nat.testBit_shiftRight, Nat.testBit_and, ← Nat.shiftRight_eq_div_pow,
    Nat.testBit_mod_two_pow, Nat.testBit_shiftRight]
  rcases Nat.lt_or_ge i 3 with h | h
  · have t15 : Nat.testBit 229376 15 = true := by decide
    have t16 : Nat.testBit 229376 16 = true := by decide
    have t17 : Nat.testBit 229376 17 = true := by decide
    interval_cases i <;> simp [t15, t16, t17]
  · have hfalse : Nat.testBit 0x38000 (15 + i) = false := by
      apply Nat.testBit_lt_two_pow
      calc (0x38000 : Nat) < 2 ^ 18 := by norm_num
        _ ≤ 2 ^ (15 + i) := Nat.pow_le_pow_right (by norm_num) (by omega)
    simp [hfalse, Nat.not_lt.mpr h]

/-- C5: for a standard-capacity (V1) descriptor whose four response words
are 32-bit values, the reported card size in blocks is
(C_SIZE + 1) <<< (C_SIZE_MULT + 2) where C_SIZE is the 12-bit field at CSD
bit 62 and C_SIZE_MULT the 3-bit field at CSD bit 47; for a high-capacity
(V2) descriptor it is (C_SIZE + 1) <<< 10 where C_SIZE is the wider 16-bit
field at CSD bit 48 that the driver decodes. -/
theorem c5_csd_capacity (w : Resp4) (h1 : w.r1 < 2 ^ 32) (h2 : w.r2 < 2 ^ 32)
    (h3 : w.r3 < 2 ^ 32) (h4 : w.r4 < 2 ^ 32) :
    CSD.capacity (.V1 w) = (csdField w 62 12 + 1) <<< (csdField w 47 3 + 2)
    ∧ CSD.capacity (.V2 w) = (csdField w 48 16 + 1) <<< 10 := by
  obtain ⟨r1, r2, r3, r4⟩ := w
  simp only [CSD.capacity, csdField, csdBits] at *
  constructor
  · have hA : r2 &&& 1023 = r2 % 2 ^ 10 := by
      have h1023 : (1023 : Nat) = 2 ^ 10 - 1 := by norm_num
      rw [h1023, Nat.and_pow_two_sub_one_eq_mod]
    have hb : r3 >>> 30 < 2 ^ 2 := by
      rw [Nat.shiftRight_eq_div_pow]; omega
    have hC : r3 >>> 30 ||| (r2 &&& 1023) <<< 2 = 2 ^ 2 * (r2 % 2 ^ 10) + r3 / 2 ^ 30 := by
      rw [hA, Nat.shiftLeft_eq, Nat.mul_comm (r2 % 2 ^ 10) (2 ^ 2),
        Nat.lor_comm, ← Nat.mul_add_lt_is_or hb, Nat.shiftRight_eq_div_pow]
    rw [hC, and_0x38000_shift,
      Nat.shiftRight_eq_div_pow (((r1 * 2 ^ 32 + r2) * 2 ^ 32 + r3) * 2 ^ 32 + r4) 62,
      Nat.shiftRight_eq_div_pow (((r1 * 2 ^ 32 + r2) * 2 ^ 32 + r3) * 2 ^ 32 + r4) 47]
    have hbase : (2 ^ 2 * (r2 % 2 ^ 10) + r3 / 2 ^ 30 + 1) % 2 ^ 32
        = (((r1 * 2 ^ 32 + r2) * 2 ^ 32 + r3) * 2 ^ 32 + r4) / 2 ^ 62 % 2 ^ 12 + 1 := by
      omega
    have hmult : r3 / 2 ^ 15 % 2 ^ 3
        = (((r1 * 2 ^ 32 + r2) * 2 ^ 32 + r3) * 2 ^ 32 + r4) / 2 ^ 47 % 2 ^ 3 := by
      omega
    rw [hbase, hmult, Nat.shiftLeft_eq]
    apply Nat.mod_eq_of_lt
    have hb1 : (((r1 * 2 ^ 32 + r2) * 2 ^ 32 + r3) * 2 ^ 32 + r4) / 2 ^ 62 % 2 ^ 12 + 1
        ≤ 2 ^ 12 := by omega
    have hb2 : 2 ^ ((((r1 * 2 ^ 32 + r2) * 2 ^ 32 + r3) * 2 ^ 32 + r4) / 2 ^ 47 % 2 ^ 3 + 2)
        ≤ 2 ^ 9 := by
      apply Nat.pow_le_pow_right (by norm_num)
      omega
    exact Nat.lt_of_le_of_lt (Nat.mul_le_mul hb1 hb2) (by norm_num)
  · rw [Nat.shiftRight_eq_div_pow r3 16,
      Nat.shiftRight_eq_div_pow (((r1 * 2 ^ 32 + r2) * 2 ^ 32 + r3) * 2 ^ 32 + r4) 48]
    have hbase : (r3 / 2 ^ 16 + 1) % 2 ^ 32
        = (((r1 * 2 ^ 32 + r2) * 2 ^ 32 + r3) * 2 ^ 32 + r4) / 2 ^ 48 % 2 ^ 16 + 1 := by
      omega
    rw [hbase, Nat.shiftLeft_eq]
    apply Nat.mod_eq_of_lt
    have hb1 : (((r1 * 2 ^ 32 + r2) * 2 ^ 32 + r3) * 2 ^ 32 + r4) / 2 ^ 48 % 2 ^ 16 + 1
        ≤ 2 ^ 16 := by omega
    exact Nat.lt_of_le_of_lt (Nat.mul_le_mul hb1 (Nat.le_refl (2 ^ 10))) (by norm_num)

/-- Witness for C5 at a concrete descriptor word vector. -/
theorem c5_csd_capacity_witness :
    CSD.capacity (.V1 ⟨0, 0x1234, 0x89ABCDEF, 0⟩)
      = (csdField ⟨0, 0x1234, 0x89ABCDEF, 0⟩ 62 12 + 1)
          <<< (csdField ⟨0, 0x1234, 0x89ABCDEF, 0⟩ 47 3 + 2)
    ∧ CSD.capacity (.V2 ⟨0, 0x1234, 0x89ABCDEF, 0⟩)
      = (csdField ⟨0, 0x1234, 0x89ABCDEF, 0⟩ 48 16 + 1) <<< 10 :=
  c5_csd_capacity ⟨0, 0x1234, 0x89ABCDEF, 0⟩ (by norm_num) (by norm_num)
    (by norm_num) (by norm_num)

/-- C8: the allocation-unit-size decoder maps the 4-bit code of every
extended-status snapshot exactly by the fixed spec table (0x1 -> 16 KiB up
to 0xf -> 64 MiB), returning InvalidValue for code 0x0 and for any value
above 0xf, and it is a total function (never panics). -/
theorem c8_au_size_table (s : SDStatus) : s.au_size = au_spec_table s.au_code := by
  have h : ∀ b : Fin 256, au_size_of_byte b.val = au_spec_table (b.val >>> 4) := by
    set_option maxRecDepth 4096 in decide
  exact h (s.bytes (10 : Fin 64))

lemma sameDrv_refl (s : S) : sameDrv s s := by
  unfold sameDrv
  exact ⟨rfl, rfl, rfl, rfl, rfl, rfl, rfl, rfl, rfl, rfl, rfl⟩

lemma sameDrv_trans {sa sb sc : S} (h1 : sameDrv sa sb) (h2 : sameDrv sb sc) :
    sameDrv sa sc := by
  unfold sameDrv at *
  obtain ⟨a1, a2, a3, a4, a5, a6, a7, a8, a9, a10, a11⟩ := h1
  obtain ⟨b1, b2, b3, b4, b5, b6, b7, b8, b9, b10, b11⟩ := h2
  exact ⟨b1.trans a1, b2.trans a2, b3.trans a3, b4.trans a4, b5.trans a5, b6.trans a6,
    b7.trans a7, b8.trans a8, b9.trans a9, b10.trans a10, b11.trans a11⟩

lemma check_command_drv (e : Bool) (s : S) {r : Nb Unit} {s' : S}
    (h : check_command e s = (r, s')) : sameDrv s s' := by
  unfold check_command readSta icrAck at h
  simp only at h
  split at h <;> [skip; split at h] <;> [skip; skip; split at h] <;>
    [skip; skip; skip; split at h] <;> [skip; skip; skip; skip; split at h] <;>
    · cases h
      exact ⟨rfl, rfl, rfl, rfl, rfl, rfl, rfl, rfl, rfl, rfl, rfl⟩

lemma blockCheck_drv (e : Bool) : ∀ (fuel : Nat) (s : S) (r : Except Error Unit) (s' : S),
    blockCheck e fuel s = some (r, s') → sameDrv s s' := by
  intro fuel
  induction fuel with
  | zero => intro s r s' h; simp [blockCheck] at h
  | succ n ih =>
    intro s r s' h
    unfold blockCheck at h
    rcases hc : check_command e s with ⟨res, s1⟩
    rw [hc] at h
    have hd : sameDrv s s1 := check_command_drv e s hc
    cases res with
    | wb => exact sameDrv_trans hd (ih s1 r s' h)
    | ok a => cases h; exact hd
    | err e1 => cases h; exact hd

lemma sameDrv_issueCmd (a b c : Nat) (s : S) : sameDrv s (issueCmd a b c s) := by
  unfold issueCmd
  exact ⟨rfl, rfl, rfl, rfl, rfl, rfl, rfl, rfl, rfl, rfl, rfl⟩

lemma sameDrv_init_peri (d : Nat) (s : S) : sameDrv s (init_peri d s) := by
  unfold init_peri
  exact ⟨rfl, rfl, rfl, rfl, rfl, rfl, rfl, rfl, rfl, rfl, rfl⟩

lemma card_command_none_drv (cmd : Command) (arg fuel : Nat) (s : S) {r : Except Error Unit}
    {s' : S} (h : card_command_none cmd arg fuel s = some (r, s')) : sameDrv s s' := by
  unfold card_command_none at h
  exact sameDrv_trans (sameDrv_issueCmd cmd.code arg 0 s)
    (blockCheck_drv false fuel (issueCmd cmd.code arg 0 s) r s' h)

lemma card_command_short_drv (cmd : Command) (arg fuel : Nat) (s : S) {r : Except Error Nat}
    {s' : S} (h : card_command_short cmd arg fuel s = some (r, s')) : sameDrv s s' := by
  unfold card_command_short at h
  dsimp only at h
  have hi := sameDrv_issueCmd cmd.code arg 1 s
  split at h
  · exact absurd h (by simp)
  · rename_i res s1 heq
    cases h
    exact sameDrv_trans hi (blockCheck_drv true fuel _ _ _ heq)
  · rename_i a s1 heq
    have hd := sameDrv_trans hi (blockCheck_drv true fuel _ _ _ heq)
    split at h <;> (cases h; exact hd)

lemma card_command_long_drv (cmd : Command) (arg fuel : Nat) (s : S) {r : Except Error Resp4}
    {s' : S} (h : card_command_long cmd arg fuel s = some (r, s')) : sameDrv s s' := by
  unfold card_command_long at h
  dsimp only at h
  have hi := sameDrv_issueCmd cmd.code arg 3 s
  split at h
  · exact absurd h (by simp)
  · rename_i res s1 heq
    cases h
    exact sameDrv_trans hi (blockCheck_drv true fuel _ _ _ heq)
  · rename_i a s1 heq
    cases h
    exact sameDrv_trans hi (blockCheck_drv true fuel _ _ _ heq)

lemma app_command_short_drv (cmd : AppCommand) (arg fuel : Nat) (s : S)
    {r : Except Error Nat} {s' : S} (h : app_command_short cmd arg fuel s = some (r, s')) :
    sameDrv s s' := by
  unfold app_command_short at h
  dsimp only at h
  split at h
  · exact absurd h (by simp)
  · rename_i e s1 heq
    cases h
    exact card_command_short_drv _ _ _ _ heq
  · rename_i a s1 heq
    have hd := card_command_short_drv _ _ _ _ heq
    have hi := sameDrv_issueCmd cmd.code arg 1 s1
    split at h
    · exact absurd h (by simp)
    · rename_i res s2 heq2
      cases h
      exact sameDrv_trans hd (sameDrv_trans hi (blockCheck_drv true fuel _ _ _ heq2))
    · rename_i b s2 heq2
      cases h
      exact sameDrv_trans hd (sameDrv_trans hi (blockCheck_drv true fuel _ _ _ heq2))

lemma acmd41_drv (hcs : Bool) (fuel : Nat) (s : S) {r : Except Error Nat} {s' : S}
    (h : acmd41 hcs fuel s = some (r, s')) : sameDrv s s' := by
  unfold acmd41 at h
  dsimp only at h
  split at h
  · exact absurd h (by simp)
  · rename_i e s1 heq
    cases h
    exact card_command_short_drv _ _ _ _ heq
  · rename_i a s1 heq
    have hd := card_command_short_drv _ _ _ _ heq
    generalize (0x00100000 ||| (if hcs then 1 else 0) <<< 30 : Nat) = av at h
    have hi := sameDrv_issueCmd AppCommand.SD_SEND_OP_COND.code av 1 s1
    split at h
    · exact absurd h (by simp)
    · rename_i res s2 heq2
      have hb := sameDrv_trans hd (sameDrv_trans hi (blockCheck_drv true fuel _ _ _ heq2))
      split at h <;> (cases h; exact hb)

lemma check_operating_conditions_drv (fuel : Nat) (s : S) {r : Except Error Unit} {s' : S}
    (h : check_operating_conditions fuel s = some (r, s')) : sameDrv s s' := by
  unfold check_operating_conditions at h
  split at h
  · exact absurd h (by simp)
  · rename_i e s1 heq
    cases h
    exact card_command_short_drv _ _ _ _ heq
  · rename_i a s1 heq
    have hd := card_command_short_drv _ _ _ _ heq
    split at h <;> (cases h; exact hd)

lemma card_status_drv (fuel : Nat) (s : S) {r : Except Error CardStatus} {s' : S}
    (h : card_status fuel s = some (r, s')) : sameDrv s s' := by
  unfold card_status at h
  dsimp only at h
  have hp := sameDrv_init_peri s.config.clock_divider s
  split at h
  · exact absurd h (by simp)
  · rename_i e s1 heq
    cases h
    exact sameDrv_trans hp (card_command_short_drv _ _ _ _ heq)
  · rename_i a s1 heq
    cases h
    exact sameDrv_trans hp (card_command_short_drv _ _ _ _ heq)

lemma check_command_okSnap (e : Bool) (s : S) (hok : (s.snaps s.idx).sta = staCmdOk) :
    check_command e s = (.ok (), stepSnap s) := by
  unfold check_command readSta icrAck stepSnap
  dsimp only
  rw [hok]
  cases e <;> rfl

lemma check_command_crcSnap (e : Bool) (s : S) (hc : (s.snaps s.idx).sta = staCmdCRC) :
    check_command e s = (.err .CRCFail, stepSnap s) := by
  unfold check_command readSta icrAck stepSnap
  dsimp only
  rw [hc]
  cases e <;> rfl

lemma check_command_ctoSnap (e : Bool) (s : S) (hc : (s.snaps s.idx).sta = staCmdTimeout) :
    check_command e s = (.err .Timeout, stepSnap s) := by
  unfold check_command readSta icrAck stepSnap
  dsimp only
  rw [hc]
  cases e <;> rfl

lemma blockCheck_okSnap (e : Bool) (fuel : Nat) (s : S)
    (hok : (s.snaps s.idx).sta = staCmdOk) :
    blockCheck e (fuel + 1) s = some (.ok (), stepSnap s) := by
  unfold blockCheck
  rw [check_command_okSnap e s hok]

lemma blockCheck_crcSnap (e : Bool) (fuel : Nat) (s : S)
    (hc : (s.snaps s.idx).sta = staCmdCRC) :
    blockCheck e (fuel + 1) s = some (.error .CRCFail, stepSnap s) := by
  unfold blockCheck
  rw [check_command_crcSnap e s hc]

lemma blockCheck_ctoSnap (e : Bool) (fuel : Nat) (s : S)
    (hc : (s.snaps s.idx).sta = staCmdTimeout) :
    blockCheck e (fuel + 1) s = some (.error .Timeout, stepSnap s) := by
  unfold blockCheck
  rw [check_command_ctoSnap e s hc]

lemma card_command_short_okSnap (cmd : Command) (arg fuel : Nat) (s : S)
    (hok : (s.snaps s.idx).sta = staCmdOk)
    (hrc : (s.snaps s.idx).respcmd % 64 = cmd.code) :
    card_command_short cmd arg (fuel + 1) s
      = some (.ok ((s.snaps s.idx).resp1 % 2 ^ 32), stepSnap (issueCmd cmd.code arg 1 s)) := by
  unfold card_command_short
  dsimp only
  rw [blockCheck_okSnap true fuel (issueCmd cmd.code arg 1 s) hok]
  dsimp only [stepSnap, issueCmd]
  rw [hrc]
  simp

lemma card_command_short_crcSnap (cmd : Command) (arg fuel : Nat) (s : S)
    (hc : (s.snaps s.idx).sta = staCmdCRC) :
    card_command_short cmd arg (fuel + 1) s
      = some (.error .CRCFail, stepSnap (issueCmd cmd.code arg 1 s)) := by
  unfold card_command_short
  dsimp only
  rw [blockCheck_crcSnap true fuel (issueCmd cmd.code arg 1 s) hc]

lemma card_command_none_crcSnap (cmd : Command) (arg fuel : Nat) (s : S)
    (hc : (s.snaps s.idx).sta = staCmdCRC) :
    card_command_none cmd arg (fuel + 1) s
      = some (.error .CRCFail, stepSnap (issueCmd cmd.code arg 0 s)) := by
  unfold card_command_none
  dsimp only
  rw [blockCheck_crcSnap false fuel (issueCmd cmd.code arg 0 s) hc]

lemma card_command_long_okSnap (cmd : Command) (arg fuel : Nat) (s : S)
    (hok : (s.snaps s.idx).sta = staCmdOk) :
    card_command_long cmd arg (fuel + 1) s
      = some (.ok ⟨(s.snaps s.idx).resp1 % 2 ^ 32, (s.snaps s.idx).resp2 % 2 ^ 32,
          (s.snaps s.idx).resp3 % 2 ^ 32, (s.snaps s.idx).resp4 % 2 ^ 32⟩,
        stepSnap (issueCmd cmd.code arg 3 s)) := by
  unfold card_command_long
  dsimp only
  rw [blockCheck_okSnap true fuel (issueCmd cmd.code arg 3 s) hok]
  rfl

/-- C2: in the Reading, Writing and Erasing states, erase, erase_card,
read_block, write_block, write_blocks and read_sd_status all return the
Busy error with the device state completely unchanged — in particular the
session state is untouched and no card command is issued. -/
theorem c2_busy_excludes_all_operations (s : S) (fuel a b n addr : Nat)
    (h : s.state = .Reading ∨ s.state = .Writing ∨ s.state = .Erasing) :
    erase a b fuel s = some (.error .Busy, s)
    ∧ erase_card fuel s = some (.error .Busy, s)
    ∧ read_block addr fuel s = some (.error .Busy, s)
    ∧ write_block addr fuel s = some (.error .Busy, s)
    ∧ write_blocks n addr fuel s = some (.error .Busy, s)
    ∧ read_sd_status fuel s = some (.error .Busy, s) := by
  have hc : check_ready s = (.error .Busy, s) := by
    unfold check_ready
    rcases h with h | h | h <;> rw [h]
  refine ⟨?_, ?_, ?_, ?_, ?_, ?_⟩ <;>
    simp [erase, erase_card, read_block, write_block, write_blocks, read_sd_status, hc]

/-- Witness for C2 at a concrete Reading-state device. -/
theorem c2_busy_excludes_all_operations_witness :
    erase 0 0 1 (mkS .Reading initScript) = some (.error .Busy, mkS .Reading initScript)
    ∧ erase_card 1 (mkS .Reading initScript) = some (.error .Busy, mkS .Reading initScript)
    ∧ read_block 0 1 (mkS .Reading initScript) = some (.error .Busy, mkS .Reading initScript)
    ∧ write_block 0 1 (mkS .Reading initScript) = some (.error .Busy, mkS .Reading initScript)
    ∧ write_blocks 0 0 1 (mkS .Reading initScript) = some (.error .Busy, mkS .Reading initScript)
    ∧ read_sd_status 1 (mkS .Reading initScript) = some (.error .Busy, mkS .Reading initScript) :=
  c2_busy_excludes_all_operations (mkS .Reading initScript) 1 0 0 0 0 (Or.inl rfl)

/-- C10: calling init_card while a read, write or erase is in flight does
not fail with Busy: it resets the peripheral through the RCC, drops the
session state to Uninitialized (abandoning the operation) and returns a
pending result, without issuing any card command. -/
theorem c10_init_card_busy_resets (s : S) (fuel : Nat)
    (h : s.state = .Reading ∨ s.state = .Writing ∨ s.state = .Erasing) :
    init_card fuel s = some (.wb, reset s)
    ∧ (reset s).state = .Uninitialized
    ∧ (reset s).issued = s.issued
    ∧ (reset s).rccResets = s.rccResets + 1 := by
  unfold init_card
  rcases h with h | h | h <;> rw [h] <;> exact ⟨rfl, rfl, rfl, rfl⟩

/-- Witness for C10 at a concrete Erasing-state device. -/
theorem c10_init_card_busy_resets_witness :
    init_card 1 (mkS .Erasing initScript) = some (.wb, reset (mkS .Erasing initScript))
    ∧ (reset (mkS .Erasing initScript)).state = .Uninitialized
    ∧ (reset (mkS .Erasing initScript)).issued = (mkS .Erasing initScript).issued
    ∧ (reset (mkS .Erasing initScript)).rccResets = (mkS .Erasing initScript).rccResets + 1 :=
  c10_init_card_busy_resets (mkS .Erasing initScript) 1 (Or.inr (Or.inr rfl))

/-- C7: result() in the Ready state with no operation started returns the
NoOperation error, and in the Uninitialized or Init1 states returns the
Uninitialized error; in all these cases every session field (state,
issued commands, DMA enable, relative address, descriptor, CID) is
unchanged. -/
theorem c7_result_precondition_errors (s : S) (fuel : Nat) :
    (s.state = .Ready → ∃ s', result fuel s = some (.err .NoOperation, s')
      ∧ s'.state = s.state ∧ s'.issued = s.issued ∧ s'.dmaEnabled = s.dmaEnabled
      ∧ s'.rca = s.rca ∧ s'.csd = s.csd ∧ s'.cid = s.cid)
    ∧ ((s.state = .Uninitialized ∨ (∃ v2, s.state = .Init1 v2)) →
      ∃ s', result fuel s = some (.err .Uninitialized, s')
      ∧ s'.state = s.state ∧ s'.issued = s.issued ∧ s'.dmaEnabled = s.dmaEnabled
      ∧ s'.rca = s.rca ∧ s'.csd = s.csd ∧ s'.cid = s.cid) := by
  constructor
  · intro h
    refine ⟨{ s with idx := s.idx + 1, cur := s.snaps s.idx }, ?_, rfl, rfl, rfl, rfl, rfl, rfl⟩
    unfold result readSta
    dsimp only
    rw [h]
  · intro h
    refine ⟨{ s with idx := s.idx + 1, cur := s.snaps s.idx }, ?_, rfl, rfl, rfl, rfl, rfl, rfl⟩
    unfold result readSta
    dsimp only
    rcases h with h | ⟨v2, h⟩ <;> rw [h]

/-- Witness for C7 at concrete Ready- and Init1-state devices. -/
theorem c7_result_precondition_errors_witness :
    (∃ s', result 1 (mkS .Ready initScript) = some (.err .NoOperation, s')
      ∧ s'.state = (mkS .Ready initScript).state
      ∧ s'.issued = (mkS .Ready initScript).issued
      ∧ s'.dmaEnabled = (mkS .Ready initScript).dmaEnabled
      ∧ s'.rca = (mkS .Ready initScript).rca ∧ s'.csd = (mkS .Ready initScript).csd
      ∧ s'.cid = (mkS .Ready initScript).cid)
    ∧ (∃ s', result 1 (mkS .Uninitialized initScript) = some (.err .Uninitialized, s')
      ∧ s'.state = (mkS .Uninitialized initScript).state
      ∧ s'.issued = (mkS .Uninitialized initScript).issued
      ∧ s'.dmaEnabled = (mkS .Uninitialized initScript).dmaEnabled
      ∧ s'.rca = (mkS .Uninitialized initScript).rca
      ∧ s'.csd = (mkS .Uninitialized initScript).csd
      ∧ s'.cid = (mkS .Uninitialized initScript).cid) :=
  ⟨(c7_result_precondition_errors (mkS .Ready initScript) 1).1 rfl,
    (c7_result_precondition_errors (mkS .Uninitialized initScript) 1).2 (Or.inl rfl)⟩

lemma result_tail_eq (st : Sta) (s : S) :
    result.result_tail st s = (spec_data_classify st,
      { s with dmaEnabled := false, icrAcks := s.icrAcks + 1, state := State.Ready }) := by
  unfold result.result_tail spec_data_classify icrAck
  dsimp only
  split_ifs <;> rfl

/-- C4: for a device in state Reading (resp. Writing), result() is pending
exactly while the receive-active (resp. transmit-active) flag of the
status register is set, leaving the whole session untouched; once the flag
is clear it disables the DMA channel, acknowledges the status flags,
returns the session to Ready whatever the outcome, and classifies the
outcome in the spec's priority order (data CRC fail, data timeout, receive
overrun, send underrun, missing data-end or block-end, success). -/
theorem c4_result_read_write_completion (s : S) (fuel : Nat) :
    (s.state = .Reading → (s.snaps s.idx).sta.rxact = true →
      result fuel s = some (.wb, readOnce s))
    ∧ (s.state = .Reading → (s.snaps s.idx).sta.rxact = false →
      result fuel s = some (spec_data_classify (s.snaps s.idx).sta, dataDone s))
    ∧ (s.state = .Writing → (s.snaps s.idx).sta.txact = true →
      result fuel s = some (.wb, readOnce s))
    ∧ (s.state = .Writing → (s.snaps s.idx).sta.txact = false →
      result fuel s = some (spec_data_classify (s.snaps s.idx).sta, dataDone s)) := by
  refine ⟨?_, ?_, ?_, ?_⟩ <;> intro h hflag <;>
    simp only [result, readSta, readOnce, dataDone] <;> rw [h, hflag] <;>
    simp [result_tail_eq]

/-- Witness for C4: a Reading device with the receive path still active is
pending; a Writing device whose data phase ended cleanly succeeds. -/
theorem c4_result_read_write_completion_witness :
    result 1 (mkS .Reading (fun _ => rxActSnap))
      = some (.wb, readOnce (mkS .Reading (fun _ => rxActSnap)))
    ∧ result 1 (mkS .Writing (fun _ => dataOkSnap))
      = some (spec_data_classify ((mkS .Writing (fun _ => dataOkSnap)).snaps
            (mkS .Writing (fun _ => dataOkSnap)).idx).sta,
          dataDone (mkS .Writing (fun _ => dataOkSnap))) :=
  ⟨(c4_result_read_write_completion (mkS .Reading (fun _ => rxActSnap)) 1).1 rfl rfl,
    (c4_result_read_write_completion (mkS .Writing (fun _ => dataOkSnap)) 1).2.2.2 rfl rfl⟩

lemma card_status_okSnap (fuel : Nat) (s : S)
    (hok : (s.snaps s.idx).sta = staCmdOk)
    (hrc : (s.snaps s.idx).respcmd % 64 = 13) :
    card_status (fuel + 1) s = some (.ok ⟨(s.snaps s.idx).resp1 % 2 ^ 32⟩,
      stepSnap (issueCmd Command.SEND_STATUS.code s.rca 1
        (init_peri s.config.clock_divider s))) := by
  unfold card_status
  dsimp only
  rw [card_command_short_okSnap Command.SEND_STATUS (init_peri s.config.clock_divider s).rca
    fuel (init_peri s.config.clock_divider s) hok hrc]
  rfl

lemma result_erasing_eq (s : S) (fuel : Nat) (h : s.state = .Erasing)
    (hok : (s.snaps (s.idx + 1)).sta = staCmdOk)
    (hrc : (s.snaps (s.idx + 1)).respcmd % 64 = 13) :
    result (fuel + 1) s =
      if ((((s.snaps (s.idx + 1)).resp1 % 2 ^ 32) >>> 8) &&& 1 != 0) = true
      then some (.ok (), { erasePoll s with state := State.Ready })
      else some (.wb, erasePoll s) := by
  obtain ⟨cfg, st, rca0, csd0, cid0, cv, sn, ix, cu, iss, dma, dl, icr, peri, af, rcc⟩ := s
  subst h
  simp only [result, readSta]
  rw [card_status_okSnap fuel
    ⟨cfg, .Erasing, rca0, csd0, cid0, cv, sn, ix + 1, sn ix, iss, dma, dl, icr, peri, af, rcc⟩
    hok hrc]
  simp only [CardStatus.ready_for_data]
  rfl

/-- C6: for a device in state Erasing, result() issues a fresh SEND_STATUS
card query each poll; it completes with success and returns to Ready
exactly when the response's ready-for-data bit is set, and stays pending
in Erasing otherwise, in both cases leaving the DMA enable untouched (no
DMA or data-path completion flag is consulted). -/
theorem c6_result_erasing (s : S) (fuel : Nat) (h : s.state = .Erasing)
    (hok : (s.snaps (s.idx + 1)).sta = staCmdOk)
    (hrc : (s.snaps (s.idx + 1)).respcmd % 64 = 13) :
    (((((s.snaps (s.idx + 1)).resp1 % 2 ^ 32) >>> 8) &&& 1 != 0) = true →
      ∃ s', result (fuel + 1) s = some (.ok (), s') ∧ s'.state = .Ready
        ∧ s'.dmaEnabled = s.dmaEnabled
        ∧ s'.issued = s.issued ++ [(13, s.rca, 1)])
    ∧ (((((s.snaps (s.idx + 1)).resp1 % 2 ^ 32) >>> 8) &&& 1 != 0) = false →
      ∃ s', result (fuel + 1) s = some (.wb, s') ∧ s'.state = .Erasing
        ∧ s'.dmaEnabled = s.dmaEnabled
        ∧ s'.issued = s.issued ++ [(13, s.rca, 1)]) := by
  have heq := result_erasing_eq s fuel h hok hrc
  constructor <;> intro hready
  · exact ⟨{ erasePoll s with state := State.Ready },
      by rw [heq, if_pos hready], rfl, rfl, rfl⟩
  · exact ⟨erasePoll s,
      by rw [heq, hready, if_neg Bool.false_ne_true], h, rfl, rfl⟩

/-- Witness for C6 at concrete Erasing-state devices, one whose status
query reports ready-for-data and one whose query does not. -/
theorem c6_result_erasing_witness :
    (∃ s', result 1 (mkS .Erasing eraseReadyScript) = some (.ok (), s')
      ∧ s'.state = .Ready
      ∧ s'.dmaEnabled = (mkS .Erasing eraseReadyScript).dmaEnabled
      ∧ s'.issued = (mkS .Erasing eraseReadyScript).issued
          ++ [(13, (mkS .Erasing eraseReadyScript).rca, 1)])
    ∧ (∃ s', result 1 (mkS .Erasing eraseBusyScript) = some (.wb, s')
      ∧ s'.state = .Erasing
      ∧ s'.dmaEnabled = (mkS .Erasing eraseBusyScript).dmaEnabled
      ∧ s'.issued = (mkS .Erasing eraseBusyScript).issued
          ++ [(13, (mkS .Erasing eraseBusyScript).rca, 1)]) :=
  ⟨(c6_result_erasing (mkS .Erasing eraseReadyScript) 0 rfl rfl rfl).1 rfl,
    (c6_result_erasing (mkS .Erasing eraseBusyScript) 0 rfl rfl rfl).2 rfl⟩

lemma sameDrv_assertFailed {sa sb : S} (h : sameDrv sa sb) :
    sb.assertFailed = sa.assertFailed :=
  h.2.2.2.2.2.2.2.2.1

lemma sameDrv_state {sa sb : S} (h : sameDrv sa sb) : sb.state = sa.state :=
  h.2.1

lemma result_assertFailed (fuel : Nat) (s : S) {r : Nb Unit} {s' : S}
    (h : result fuel s = some (r, s')) : s'.assertFailed = s.assertFailed := by
  simp only [result, readSta] at h
  split at h
  · cases h; rfl
  · cases h; rfl
  · cases h; rfl
  · split at h
    · exact absurd h (by simp)
    · rename_i e s1 heq
      cases h
      have hd := card_status_drv fuel _ heq
      have he := sameDrv_assertFailed hd
      exact he
    · rename_i cs s1 heq
      have hd := card_status_drv fuel _ heq
      have he := sameDrv_assertFailed hd
      split at h <;> (cases h; exact he)
  · split at h
    · cases h; rfl
    · rw [result_tail_eq] at h
      cases h; rfl
  · split at h
    · cases h; rfl
    · rw [result_tail_eq] at h
      cases h; rfl

lemma blockResult_assertFailed : ∀ (fuel : Nat) (s : S) {r : Except Error Unit} {s' : S},
    blockResult fuel s = some (r, s') → s'.assertFailed = s.assertFailed := by
  intro fuel
  induction fuel with
  | zero => intro s r s' h; simp [blockResult] at h
  | succ n ih =>
    intro s r s' h
    unfold blockResult at h
    split at h
    · exact absurd h (by simp)
    · rename_i s1 heq
      exact (ih s1 h).trans (result_assertFailed n s heq)
    · rename_i a s1 heq
      cases h
      exact result_assertFailed n s heq
    · rename_i e s1 heq
      cases h
      exact result_assertFailed n s heq

lemma check_ready_assertFailed (s : S) {r : Except Error Unit} {s' : S}
    (h : check_ready s = (r, s')) : s'.assertFailed = s.assertFailed := by
  unfold check_ready at h
  split at h <;> (cases h; rfl)

lemma setup_read_assertFailed_of_ok (size : Nat) (s : S)
    (hok : setup_read_len_ok size = true) :
    (setup_read size s).assertFailed = s.assertFailed := by
  unfold setup_read
  dsimp only
  rw [hok]
  simp

/-- C9: the DMA read setup asserts that the transfer length is a power of
two, a multiple of 4 bytes and below 256 KiB; the 512-byte read_block
buffer and the 64-byte read_sd_status buffer both satisfy it, so the
assertion can never fire on either public read path. -/
theorem c9_setup_read_assertion (addr fuel : Nat) (s : S) :
    setup_read_len_ok BLOCK_SIZE = true
    ∧ setup_read_len_ok 64 = true
    ∧ (∀ (r : Except Error Unit) (s' : S), read_block addr fuel s = some (r, s') →
        s'.assertFailed = s.assertFailed)
    ∧ (∀ (r : Except Error Unit) (s' : S), read_sd_status fuel s = some (r, s') →
        s'.assertFailed = s.assertFailed) := by
  refine ⟨by decide, by decide, ?_, ?_⟩
  · intro r s' h
    unfold read_block at h
    split at h
    · rename_i e s1 heq
      cases h
      exact check_ready_assertFailed s heq
    · rename_i s1 heq
      have h1 := check_ready_assertFailed s heq
      have h2 := setup_read_assertFailed_of_ok BLOCK_SIZE s1 (by decide)
      dsimp only at h
      split at h
      · exact absurd h (by simp)
      · rename_i a s2 heq2
        cases h
        exact (sameDrv_assertFailed (card_command_short_drv _ _ _ _ heq2)).trans
          (h2.trans h1)
      · rename_i e s2 heq2
        cases h
        exact (sameDrv_assertFailed (card_command_short_drv _ _ _ _ heq2)).trans
          (h2.trans h1)
  · intro r s' h
    unfold read_sd_status at h
    split at h
    · rename_i e s1 heq
      cases h
      exact check_ready_assertFailed s heq
    · rename_i s1 heq
      have h1 := check_ready_assertFailed s heq
      have h2 := setup_read_assertFailed_of_ok 64 s1 (by decide)
      dsimp only at h
      split at h
      · exact absurd h (by simp)
      · rename_i e s2 heq2
        cases h
        exact (sameDrv_assertFailed (app_command_short_drv _ _ _ _ heq2)).trans
          (h2.trans h1)
      · rename_i a s2 heq2
        have h3 := sameDrv_assertFailed (app_command_short_drv _ _ _ _ heq2)
        have h4 := blockResult_assertFailed fuel _ h
        exact h4.trans (h3.trans (h2.trans h1))

lemma init_card_tail_err (v2 : Bool) (r fuel : Nat) (s : S) {e : Error} {s' : S}
    (h : init_card_tail v2 r fuel s = some (.err e, s')) : s'.state = s.state := by
  unfold init_card_tail at h
  dsimp only at h
  split at h
  · exact absurd h (by simp)
  · rename_i e1 s1 heq
    have hd1 := sameDrv_state (card_command_long_drv _ _ _ _ heq)
    cases h
    exact hd1
  · rename_i cid1 s1 heq
    have hd1 := sameDrv_state (card_command_long_drv _ _ _ _ heq)
    split at h
    · exact absurd h (by simp)
    · rename_i e2 s2 heq2
      have hd2 := sameDrv_state (card_command_short_drv _ _ _ _ heq2)
      cases h
      exact hd2.trans hd1
    · rename_i rca1 s2 heq2
      have hd2 := sameDrv_state (card_command_short_drv _ _ _ _ heq2)
      split at h
      · exact absurd h (by simp)
      · rename_i e3 s3 heq3
        have hd3 := sameDrv_state (card_command_long_drv _ _ _ _ heq3)
        cases h
        exact (hd3.trans hd2).trans hd1
      · rename_i csd1 s3 heq3
        have hd3 := sameDrv_state (card_command_long_drv _ _ _ _ heq3)
        split at h
        · exact absurd h (by simp)
        · rename_i e4 s4 heq4
          have hd4 := sameDrv_state (card_command_short_drv _ _ _ _ heq4)
          cases h
          exact ((hd4.trans hd3).trans hd2).trans hd1
        · rename_i a4 s4 heq4
          have hd4 := sameDrv_state (card_command_short_drv _ _ _ _ heq4)
          split at h
          · exact absurd h (by simp)
          · rename_i e5 s5 heq5
            have hd5 := sameDrv_state (app_command_short_drv _ _ _ _ heq5)
            cases h
            exact (((hd5.trans hd4).trans hd3).trans hd2).trans hd1
          · exact absurd h (by simp)

lemma init_card_init1_err (v2 : Bool) (fuel : Nat) (s : S) {e : Error} {s' : S}
    (h : init_card_init1 v2 fuel s = some (.err e, s')) (hnc : e ≠ .NoCard) :
    s'.state = .Uninitialized := by
  unfold init_card_init1 at h
  dsimp only at h
  split at h
  · exact absurd h (by simp)
  · rename_i res s1 heq
    split at h
    · cases h
      exact absurd rfl hnc
    · rename_i res2 v2b r1
      split at h
      · exact absurd h (by simp)
      · exact init_card_tail_err v2 r1 fuel _ h
    · cases h
      rfl

lemma init_card_go_err (fuel : Nat) (s : S) {e : Error} {s' : S}
    (h : init_card_go fuel s = some (.err e, s')) (hnc : e ≠ .NoCard) :
    s'.state = s.state ∨ s'.state = .Uninitialized := by
  unfold init_card_go at h
  dsimp only at h
  split at h
  · exact absurd h (by simp)
  · rename_i e1 s1 heq
    have hd1 := sameDrv_state (card_command_none_drv _ _ _ _ heq)
    cases h
    left
    exact hd1
  · rename_i a1 s1 heq
    have hd1 := sameDrv_state (card_command_none_drv _ _ _ _ heq)
    split at h
    · exact absurd h (by simp)
    · right
      exact init_card_init1_err false fuel _ h hnc
    · right
      exact init_card_init1_err true fuel _ h hnc
    · rename_i e2 s2 heq2
      have hd2 := sameDrv_state (check_operating_conditions_drv _ _ heq2)
      cases h
      left
      exact hd2.trans hd1

/-- C1 counterexample: entered from Ready, a timeout of the very first
initialization command (GO_IDLE_STATE) makes init_card return that error
while the session state stays Ready, not Uninitialized as claimed. -/
theorem c1_init_error_counterexample :
    (init_card 1 (mkS .Ready (fun _ => ctoSnap))).map (fun p => (p.1, p.2.state))
      = some (.err .Timeout, State.Ready) := by
  rfl

/-- C1 as amended: every command failure during init_card other than the
NoCard result (the v1-card acmd41 timeout, which leaves Init1 false)
surfaces its specific error and leaves the session state Uninitialized,
except that a failure before the Init1 substate is stored, with init_card
entered from Ready, leaves the state Ready. -/
theorem c1_init_errors_leave_uninitialized (fuel : Nat) (s : S) (e : Error) (s' : S)
    (h : init_card fuel s = some (.err e, s')) (hnc : e ≠ .NoCard) :
    s'.state = .Uninitialized ∨ (s.state = .Ready ∧ s'.state = .Ready) := by
  unfold init_card at h
  split at h
  · exact absurd h (by simp)
  · exact absurd h (by simp)
  · exact absurd h (by simp)
  · exact Or.inl (init_card_init1_err _ fuel s h hnc)
  · rename_i heq
    rcases init_card_go_err fuel s h hnc with hl | hr
    · rw [heq] at hl
      exact Or.inl hl
    · exact Or.inl hr
  · rename_i heq
    rcases init_card_go_err fuel s h hnc with hl | hr
    · rw [heq] at hl
      exact Or.inr ⟨heq, hl⟩
    · exact Or.inl hr

/-- Witness for the amended C1: from Uninitialized entry, a GO_IDLE_STATE
timeout surfaces Timeout and leaves the state Uninitialized. -/
theorem c1_init_errors_leave_uninitialized_witness :
    init_card 1 (mkS .Uninitialized (fun _ => ctoSnap))
      = some (.err .Timeout,
          stepSnap (issueCmd 0 0 0 (init_peri 0x80 (mkS .Uninitialized (fun _ => ctoSnap)))))
    ∧ ((stepSnap (issueCmd 0 0 0
            (init_peri 0x80 (mkS .Uninitialized (fun _ => ctoSnap))))).state = .Uninitialized
        ∨ ((mkS .Uninitialized (fun _ => ctoSnap)).state = .Ready
          ∧ (stepSnap (issueCmd 0 0 0
              (init_peri 0x80 (mkS .Uninitialized (fun _ => ctoSnap))))).state = .Ready)) := by
  have hcomp : init_card 1 (mkS .Uninitialized (fun _ => ctoSnap))
      = some (.err .Timeout,
          stepSnap (issueCmd 0 0 0 (init_peri 0x80 (mkS .Uninitialized (fun _ => ctoSnap))))) := by
    rfl
  exact ⟨hcomp, c1_init_errors_leave_uninitialized 1 _ .Timeout _ hcomp (by decide)⟩

/-- C3: a CRC-failure result from the SD_SEND_OP_COND exchange of acmd41
is treated as success (the response word is still read), and a complete
initialization with exactly such a CRC failure reaches Ready, both from
the Init1 substate and from scratch; by contrast a CRC failure on any
other exchange — GO_IDLE_STATE, or the APP_COMMAND prelude of acmd41
itself — aborts initialization with the CRCFail error. -/
theorem c3_acmd41_crc_is_success :
    (∀ (s : S) (hcs : Bool) (fuel : Nat),
      (s.snaps s.idx).sta = staCmdOk → (s.snaps s.idx).respcmd % 64 = 55 →
      (s.snaps (s.idx + 1)).sta = staCmdCRC →
      acmd41 hcs (fuel + 1) s = some (.ok ((s.snaps (s.idx + 1)).resp1 % 2 ^ 32),
        stepSnap (issueCmd 41 (0x00100000 ||| (if hcs then 1 else 0) <<< 30) 1
          (stepSnap (issueCmd 55 0 1 s)))))
    ∧ (init_card 1 (mkS (.Init1 true) c3Init1Script)).map (fun p => (p.1, p.2.state))
        = some (.ok (), .Ready)
    ∧ (init_card 1 (mkS .Uninitialized initScript)).map (fun p => (p.1, p.2.state))
        = some (.ok (), .Ready)
    ∧ (∀ (s : S) (fuel : Nat), s.state = .Uninitialized →
        (s.snaps s.idx).sta = staCmdCRC →
        init_card (fuel + 1) s
          = some (.err .CRCFail, stepSnap (issueCmd 0 0 0 (init_peri 0x80 s))))
    ∧ (∀ (s : S) (v2 : Bool) (fuel : Nat), s.state = .Init1 v2 →
        (s.snaps s.idx).sta = staCmdCRC →
        init_card (fuel + 1) s = some (.err .CRCFail,
          { stepSnap (issueCmd 55 0 1 (init_peri 0x80 s)) with
            state := State.Uninitialized })) := by
  refine ⟨?_, by rfl, by rfl, ?_, ?_⟩
  · intro s hcs fuel h0 hrc h1
    unfold acmd41
    dsimp only
    rw [card_command_short_okSnap .APP_COMMAND 0 fuel s h0 hrc]
    dsimp only
    rw [blockCheck_crcSnap true fuel
      (issueCmd AppCommand.SD_SEND_OP_COND.code
        (0x00100000 ||| (if hcs then 1 else 0) <<< 30) 1
        (stepSnap (issueCmd Command.APP_COMMAND.code 0 1 s))) h1]
    rfl
  · intro s fuel h hcrc
    unfold init_card
    rw [h]
    show init_card_go (fuel + 1) s = _
    unfold init_card_go
    dsimp only
    rw [card_command_none_crcSnap .GO_IDLE_STATE 0 fuel (init_peri 0x80 s) hcrc]
    rfl
  · intro s v2 fuel h hcrc
    unfold init_card
    rw [h]
    show init_card_init1 v2 (fuel + 1) s = _
    unfold init_card_init1 acmd41
    dsimp only
    rw [card_command_short_crcSnap .APP_COMMAND 0 fuel (init_peri 0x80 s) hcrc]
    cases v2 <;> rfl

/-- Witness for C3: the acmd41 reinterpretation and the GO_IDLE abort,
each applied at a concrete device. -/
theorem c3_acmd41_crc_is_success_witness :
    acmd41 true 1 (mkS (.Init1 true) c3Init1Script)
      = some (.ok ((((mkS (.Init1 true) c3Init1Script)).snaps 1).resp1 % 2 ^ 32),
        stepSnap (issueCmd 41 (0x00100000 ||| 1 <<< 30) 1
          (stepSnap (issueCmd 55 0 1 (mkS (.Init1 true) c3Init1Script)))))
    ∧ init_card 1 (mkS .Uninitialized (fun _ => crcSnap 0))
      = some (.err .CRCFail,
          stepSnap (issueCmd 0 0 0 (init_peri 0x80 (mkS .Uninitialized (fun _ => crcSnap 0))))) :=
  ⟨(c3_acmd41_crc_is_success.1 (mkS (.Init1 true) c3Init1Script) true 0 rfl rfl rfl),
    (c3_acmd41_crc_is_success.2.2.2.1 (mkS .Uninitialized (fun _ => crcSnap 0)) 0 rfl rfl)⟩

/-- Witness for C9: a concrete Ready-state read_block start completes and
leaves the assertion flag unfired. -/
theorem c9_setup_read_assertion_witness :
    setup_read_len_ok BLOCK_SIZE = true
    ∧ setup_read_len_ok 64 = true
    ∧ ∃ p : Except Error Unit × S, read_block 100 1 (mkS .Ready readBlockScript) = some p
        ∧ p.2.assertFailed = (mkS .Ready readBlockScript).assertFailed := by
  obtain ⟨h1, h2, h3, h4⟩ := c9_setup_read_assertion 100 1 (mkS .Ready readBlockScript)
  refine ⟨h1, h2, ?_⟩
  rcases hcomp : read_block 100 1 (mkS .Ready readBlockScript) with _ | p
  · have hsome : (read_block 100 1 (mkS .Ready readBlockScript)).isSome = true := by decide
    rw [hcomp] at hsome
    exact absurd hsome (by simp)
  · exact ⟨p, rfl, h3 p.1 p.2 hcomp⟩

end Sd
